import Mathlib

/-!
Shallow embedding of `src/dph5005/DPH5005_Interface.py` (class `DPH5005`),
the Modbus-RTU style serial protocol driver for the DPH5005 bench power
supply.  Bytes are modelled as natural numbers below 256 inside `List Nat`;
Python `struct` packers become explicit functions; fallible Python
operations (dict lookup raising `KeyError`, `struct.error`, `list.index`
raising `ValueError`, sequence indexing raising `IndexError`) return
`Except PyErr`.  Serial I/O is modelled by oracles: a `Bool` for whether an
`open`/probe succeeds and a byte list for what the device sends back.
-/

namespace DPH5005

/-- Python exception kinds that the embedded code can raise. -/
inductive PyErr
  | keyError
  | structError
  | valueError
  | indexError
  | typeError
deriving DecidableEq, Repr

/-- Python values that can appear in the parsed-result dict: ints, strings,
raw byte strings, and lists thereof. -/
inductive PyVal
  | int (n : Nat)
  | str (s : String)
  | bytes (bs : List Nat)
  | list (xs : List PyVal)

/-- Python dict with string keys, in insertion order. -/
abbrev PyDict := List (String × PyVal)

/-- Lookup in a Python dict: `d[k]` raising `KeyError` when absent. -/
def dictGet {α : Type} (d : List (String × α)) (k : String) : Except PyErr α :=
  match d.find? (fun p => p.1 = k) with
  | some p => .ok p.2
  | none => .error .keyError

/-- Python `list.index`: position of the first occurrence, `ValueError` if
absent. -/
def indexOfName (nm : String) : List String → Except PyErr Nat
  | [] => .error .valueError
  | x :: xs =>
    if x = nm then .ok 0
    else match indexOfName nm xs with
      | .ok i => .ok (i + 1)
      | .error e => .error e

/-- Module-level dict `function`: mode name → 1-byte function code. -/
def functionDict : List (String × List Nat) :=
  [("read", [0x03]), ("single_write", [0x06]), ("multiple_write", [0x10])]

/-- Packer `byte_packer = struct.Struct(">B")`: one unsigned byte;
`struct.error` when out of range. -/
def bytePack (n : Nat) : Except PyErr (List Nat) :=
  if n < 256 then .ok [n] else .error .structError

/-- Unpack of `byte_packer`: requires exactly one byte. -/
def byteUnpack (bs : List Nat) : Except PyErr Nat :=
  match bs with
  | [b] => .ok b
  | _ => .error .structError

/-- Packer `data_packer = struct.Struct(">H")`: big-endian 16-bit unsigned. -/
def dataPack (n : Nat) : Except PyErr (List Nat) :=
  if n < 65536 then .ok [n / 256, n % 256] else .error .structError

/-- Unpack of `data_packer`: requires exactly two bytes, big-endian. -/
def dataUnpack (bs : List Nat) : Except PyErr Nat :=
  match bs with
  | [hi, lo] => .ok (hi * 256 + lo)
  | _ => .error .structError

/-- Packer `crc_packer = struct.Struct("<H")`: little-endian 16-bit; the CRC
accumulator is always below 2^16, so the pack is total here. -/
def crcPack (n : Nat) : List Nat := [n % 256, n / 256]

/-- One iteration of the inner CRC loop body in `DPH5005.get_crc`:
right-shift, XOR-ing 0xA001 in first when the low bit is set. -/
def crcShift (crc : Nat) : Nat :=
  if crc &&& 0x0001 = 0x0001 then (crc >>> 1) ^^^ 0xA001 else crc >>> 1

/-- The `for i in range(8)` loop of `DPH5005.get_crc`. -/
def crcRounds (crc : Nat) : Nat → Nat
  | 0 => crc
  | k + 1 => crcRounds (crcShift crc) k

/-- Method `DPH5005.get_crc`: Modbus CRC16 over a byte string, emitted LSB first. -/
def get_crc (message : List Nat) : List Nat :=
  crcPack (message.foldl (fun crc b => crcRounds (crc ^^^ b) 8) 0xFFFF)

/-- Instance attribute `self.registers`: register name → 2-byte big-endian
protocol address. -/
def registers : List (String × List Nat) :=
  [("V-SET", [0x00, 0x00]),
   ("I-SET", [0x00, 0x01]),
   ("V-OUT", [0x00, 0x02]),
   ("I-OUT", [0x00, 0x03]),
   ("POWER", [0x00, 0x04]),
   ("V-IN", [0x00, 0x05]),
   ("LOCK", [0x00, 0x06]),
   ("PROTECT", [0x00, 0x07]),
   ("CV/CC", [0x00, 0x08]),
   ("ON/OFF", [0x00, 0x09]),
   ("B-LED", [0x00, 0x0A]),
   ("MODEL", [0x00, 0x0B]),
   ("VERSION", [0x00, 0x0C])]

/-- Instance attribute `self.register_order`: the registers in ordinal
order, used to resolve contiguous spans. -/
def register_order : List String :=
  ["V-SET", "I-SET", "V-OUT", "I-OUT", "POWER", "V-IN", "LOCK",
   "PROTECT", "CV/CC", "ON/OFF", "B-LED", "MODEL", "VERSION"]

/-- Handle returned by `serial.Serial(port, timeout=1)`: the opened port
name and the read timeout it was opened with. -/
structure PortHandle where
  name : String
  timeout : Nat
deriving DecidableEq, Repr

/-- Connection state of a `DPH5005` object: `self.port`, which is `None`
when disconnected. -/
structure Session where
  port : Option PortHandle
deriving DecidableEq, Repr

/-- Observable I/O performed on the serial port by `DPH5005.__send`. -/
inductive IOEvent
  | write (bytes : List Nat)
  | read (count : Nat)
deriving DecidableEq, Repr

/-- Method `DPH5005.disconnect_port`: close the port if one is open and clear the
handle.  Also returns the list of handles that got closed. -/
def disconnect_port (s : Session) : Session × List PortHandle :=
  match s.port with
  | some h => (⟨none⟩, [h])
  | none => (s, [])

/-- Method `DPH5005.connect_port`: disconnect any previous port, then try to open
`port` with `timeout=1`.  The oracle `openOk` says whether
`serial.Serial` succeeds or raises `serial.SerialException`; the caught
exception becomes the return value `false`. -/
def connect_port (s : Session) (port : String) (openOk : Bool) :
    Session × Bool × List PortHandle :=
  let (s1, closed) := disconnect_port s
  if openOk then (⟨some ⟨port, 1⟩⟩, true, closed)
  else (s1, false, closed)

/-- Method `DPH5005.is_port_alive`: `False` when no port is open; otherwise probe
`self.port.in_waiting` — the oracle `probeOk` says whether the probe
raises `OSError`/`SerialException`, in which case the session disconnects
before returning `False`. -/
def is_port_alive (s : Session) (probeOk : Bool) :
    Session × Bool × List PortHandle :=
  match s.port with
  | none => (s, false, [])
  | some _ =>
    if probeOk then (s, true, [])
    else
      let (s1, closed) := disconnect_port s
      (s1, false, closed)

/-- Method `DPH5005.__send`: under the command lock, if the port is alive write the
command and read up to `byteLength` bytes (the oracle `deviceBytes` is
what the device has sent; a short read models a timeout), else return the
sentinel `b"\x00"`.  The third component records the I/O performed. -/
def send (s : Session) (command : List Nat) (byteLength : Nat)
    (probeOk : Bool) (deviceBytes : List Nat) :
    Session × List Nat × List IOEvent :=
  let (s1, alive, _) := is_port_alive s probeOk
  if alive then
    (s1, deviceBytes.take byteLength, [.write command, .read byteLength])
  else
    (s1, [0x00], [])

/-- Python argument `registers` of `send_command`: either a bare register
name or a `(starting-register, count)` tuple. -/
inductive PyRegs
  | name (s : String)
  | span (s : String) (count : Nat)

/-- Python argument `data` of `send_command`: `None` for read, an int for
single write, a list of ints for multiple write. -/
inductive PyData
  | none
  | int (n : Nat)
  | list (xs : List Nat)

/-- First element `registers[0]` for tuples, or `registers` itself for a
bare name — the key used for the register-dict lookup. -/
def PyRegs.firstName : PyRegs → String
  | .name s => s
  | .span s _ => s

/-- Python `registers[1]` fed to `data_packer.pack`/`byte_packer.pack`: for
a tuple this is the count; for a bare string, indexing yields a one-char
string that the packer then rejects with `struct.error`. -/
def PyRegs.second : PyRegs → Except PyErr Nat
  | .name _ => .error .structError
  | .span _ n => .ok n

/-- Python `data[i]` in the multiple-write loop: `IndexError` past the end,
`TypeError` when `data` is not a list. -/
def PyData.item : PyData → Nat → Except PyErr Nat
  | .list xs, i =>
    match xs.get? i with
    | some v => .ok v
    | Option.none => .error .indexError
  | _, _ => .error .typeError

/-- Loop `for i in range(0, registers[1]): command += data_packer.pack(data[i])`
in the multiple-write branch of `send_command`. -/
def packWords (data : PyData) : Nat → Except PyErr (List Nat)
  | 0 => .ok []
  | k + 1 => do
    let pre ← packWords data k
    let v ← data.item k
    let w ← dataPack v
    .ok (pre ++ w)

/-- Loop `for i in range(0, registers[1]): expected_response += b"\x00\x00"`
in the read branch of `send_command`. -/
def readPlaceholders : Nat → List Nat
  | 0 => []
  | k + 1 => readPlaceholders k ++ [0x00, 0x00]

/-- Command/expected-response assembly of `DPH5005.send_command` (lines
before the `__send` call): returns the frame and the expected response,
both CRC-terminated, or the Python exception raised while building. -/
def build_command (address : Nat) (mode : String) (regs : PyRegs)
    (data : PyData) : Except PyErr (List Nat × List Nat) := do
  let a ← bytePack address
  let fb ← dictGet functionDict mode
  let header := a ++ fb
  let regAddr ← dictGet registers regs.firstName
  let cmd0 := header ++ regAddr
  if mode = "read" then
    let cnt ← regs.second
    let cw ← dataPack cnt
    let bc ← bytePack (cnt * 2)
    let command := cmd0 ++ cw
    let expected := header ++ bc ++ readPlaceholders cnt
    .ok (command ++ get_crc command, expected ++ get_crc expected)
  else if mode = "single_write" then
    let dv ← match data with
      | .int n => dataPack n
      | _ => .error .structError
    let echoAddr ← match regs with
      | .name s => dictGet registers s
      | .span _ _ => .error .keyError
    let command := cmd0 ++ dv
    let expected := header ++ echoAddr ++ dv
    .ok (command ++ get_crc command, expected ++ get_crc expected)
  else if mode = "multiple_write" then
    let cnt ← regs.second
    let cw ← dataPack cnt
    let bc ← bytePack (2 * cnt)
    let ws ← packWords data cnt
    let command := cmd0 ++ cw ++ bc ++ ws
    let expected := header ++ regAddr ++ cw
    .ok (command ++ get_crc command, expected ++ get_crc expected)
  else
    .ok (cmd0 ++ get_crc cmd0, header ++ get_crc header)

/-- Loop `for m in function.items(): if mode == m[1]: mode = m[0]; break` in
`__parse_response`: the mode byte string is replaced by the matching mode
name, or left as raw bytes when no function code matches. -/
def lookupModeName (modeBytes : List Nat) : Sum String (List Nat) :=
  match functionDict.find? (fun m => m.2 = modeBytes) with
  | some m => .inl m.1
  | none => .inr modeBytes

/-- Loops `for item in self.registers.items(): if reg == item[1]: ...` in
`__parse_response`: a 2-byte address is replaced by the matching register
name, or left as raw bytes when no catalog address matches. -/
def findRegisterName (addrBytes : List Nat) : Sum String (List Nat) :=
  match registers.find? (fun item => item.2 = addrBytes) with
  | some item => .inl item.1
  | none => .inr addrBytes

/-- PyVal for a name-or-bytes value as stored into the parsed dict. -/
def nameOrBytesVal : Sum String (List Nat) → PyVal
  | .inl s => .str s
  | .inr bs => .bytes bs

/-- Python `register_order.index` applied to a name-or-bytes value: raw
bytes are never an element of the string list, so they raise
`ValueError` just as an unknown name does. -/
def orderIndexOf : Sum String (List Nat) → Except PyErr Nat
  | .inl nm => indexOfName nm register_order
  | .inr _ => .error .valueError

/-- Loop `for i in range(0, number_of_registers):` decoding consecutive
2-byte big-endian words off the front of a byte string
(`data_packer.unpack(bs[:2])`, then `bs = bs[2:]`). -/
def readWords : List Nat → Nat → Except PyErr (List Nat)
  | _, 0 => .ok []
  | bs, k + 1 => do
    let v ← dataUnpack (bs.take 2)
    let rest ← readWords (bs.drop 2) k
    .ok (v :: rest)

/-- Method `DPH5005.__parse_response`: decode a CRC-checked response against the
original command frame.  Python slices clip just like `List.take`/`drop`. -/
def parse_response (command response : List Nat) :
    Except PyErr PyDict := do
  let address ← byteUnpack (response.take 1)
  let modeName := lookupModeName ((response.drop 1).take 1)
  let body := (response.take (response.length - 2)).drop 2
  match modeName with
  | .inl "read" => do
    let startName := findRegisterName ((command.drop 2).take 2)
    let bc ← byteUnpack (body.take 1)
    let numRegs := bc / 2
    let rest := body.drop 1
    let startIndex ← orderIndexOf startName
    let regWindow := (register_order.drop startIndex).take numRegs
    let vals ← readWords rest numRegs
    .ok [("address", .int address), ("mode", .str "read"),
         ("registers", .list (regWindow.map .str)),
         ("data", .list (vals.map .int))]
  | .inl "single_write" => do
    let regName := findRegisterName (body.take 2)
    let v ← dataUnpack (body.drop 2)
    .ok [("address", .int address), ("mode", .str "single_write"),
         ("data", .int v), ("registers", nameOrBytesVal regName)]
  | .inl "multiple_write" => do
    let startName := findRegisterName (body.take 2)
    let numRegs ← dataUnpack (body.drop 2)
    let startIndex ← orderIndexOf startName
    let regWindow := (register_order.drop startIndex).take numRegs
    let payload := (command.take (command.length - 2)).drop 7
    let vals ← readWords payload numRegs
    .ok [("address", .int address), ("mode", .str "multiple_write"),
         ("registers", .list (regWindow.map .str)),
         ("data", .list (vals.map .int))]
  | _ =>
    -- defensive fallthrough: `return dict()`
    .ok []

/-- CRC validation and dispatch at the end of `DPH5005.send_command`:
`response[-2:] == get_crc(response[:-2])` guards the parse; a mismatch
yields the failure marker `(False, {"mode": mode})`. -/
def check_response (mode : String) (command response : List Nat) :
    Except PyErr (Bool × PyDict) :=
  if response.drop (response.length - 2) = get_crc (response.take (response.length - 2)) then do
    let parsed ← parse_response command response
    .ok (true, parsed)
  else
    .ok (false, [("mode", .str mode)])

/-- Method `DPH5005.send_command`: build the frame and expected response, send over
the port (oracles `probeOk`, `deviceBytes`), then CRC-check and parse.
Returns the updated session, the Python return value (or exception), and
the I/O trace. -/
def send_command (s : Session) (address : Nat) (mode : String)
    (regs : PyRegs) (data : PyData) (probeOk : Bool)
    (deviceBytes : List Nat) :
    Session × Except PyErr (Bool × PyDict) × List IOEvent :=
  match build_command address mode regs data with
  | .error e => (s, .error e, [])
  | .ok (command, expected) =>
    let (s1, response, events) := send s command expected.length probeOk deviceBytes
    (s1, check_response mode command response, events)

/-!
Statement-side helper definitions: a specification transcription of the
CRC16 algorithm (for the refinement claim about `get_crc`), and a
description of the three kinds of valid `send_command` invocations together
with the response a correctly functioning device produces for each.
-/

instance {ε α : Type} [DecidableEq ε] [DecidableEq α] :
    DecidableEq (Except ε α) := fun a b =>
  match a, b with
  | .ok x, .ok y =>
    if h : x = y then isTrue (congrArg Except.ok h)
    else isFalse (fun hc => h (Except.ok.inj hc))
  | .ok _, .error _ => isFalse (fun hc => Except.noConfusion hc)
  | .error _, .ok _ => isFalse (fun hc => Except.noConfusion hc)
  | .error e, .error f =>
    if h : e = f then isTrue (congrArg Except.error h)
    else isFalse (fun hc => h (Except.error.inj hc))

/-- Specification-side single CRC iteration: "if the low bit is set,
right-shift and XOR with polynomial constant 0xA001, else right-shift
only". -/
def crc16_spec_round (crc : Nat) : Nat :=
  if crc % 2 = 1 then (crc / 2) ^^^ 0xA001 else crc / 2

/-- Specification-side per-byte step: "XOR it into the low byte of the
accumulator, then perform 8 iterations". -/
def crc16_spec_byte (crc b : Nat) : Nat :=
  crc16_spec_round (crc16_spec_round (crc16_spec_round (crc16_spec_round
    (crc16_spec_round (crc16_spec_round (crc16_spec_round (crc16_spec_round
      (crc ^^^ b))))))))

/-- Specification-side CRC16: accumulator initialized to 0xFFFF, folded over
the input bytes, emitted as 2 bytes least-significant-byte first. -/
def crc16_spec (msg : List Nat) : List Nat :=
  let c := msg.foldl crc16_spec_byte 0xFFFF
  [c % 256, c / 256 % 256]

/-- Big-endian byte pair of a 16-bit value, as `data_packer.pack` emits it. -/
def word (n : Nat) : List Nat := [n / 256, n % 256]

/-- Ordinal position of a register name in `register_order` (13, one past
the end, for names outside the catalog). -/
def ordIdx (nm : String) : Nat :=
  ((indexOfName nm register_order).toOption).getD 13

/-- Protocol address bytes of a register name from the catalog (empty for
names outside it). -/
def regAddrOf (nm : String) : List Nat :=
  ((dictGet registers nm).toOption).getD []

/-- Argument shape of one valid `send_command` call: mode together with the
mode's register/data arguments, plus, for a read, the register contents
the device will report. -/
inductive Invocation
  | rd (start : String) (count : Nat) (values : List Nat)
  | sw (reg : String) (value : Nat)
  | mw (start : String) (count : Nat) (values : List Nat)

/-- Mode string passed to `send_command`. -/
def Invocation.mode : Invocation → String
  | .rd .. => "read"
  | .sw .. => "single_write"
  | .mw .. => "multiple_write"

/-- Argument `registers` passed to `send_command`. -/
def Invocation.regsArg : Invocation → PyRegs
  | .rd start count _ => .span start count
  | .sw reg _ => .name reg
  | .mw start count _ => .span start count

/-- Argument `data` passed to `send_command`. -/
def Invocation.dataArg : Invocation → PyData
  | .rd .. => .none
  | .sw _ v => .int v
  | .mw _ _ vs => .list vs

/-- Validity of an invocation: the register names are catalog names, the
span stays inside the 13 registers, and all 16-bit data fits. -/
def Invocation.validb : Invocation → Bool
  | .rd start count values =>
    register_order.contains start && decide (ordIdx start + count ≤ 13) &&
    decide (values.length = count) && values.all (fun v => decide (v < 65536))
  | .sw reg value =>
    register_order.contains reg && decide (value < 65536)
  | .mw start count values =>
    register_order.contains start && decide (ordIdx start + count ≤ 13) &&
    decide (values.length = count) && values.all (fun v => decide (v < 65536))

/-- Response of a correctly functioning device: for a read, the echoed
header, a byte count, the requested register contents and a CRC; for the
writes, exactly the expected-response template `send_command` builds
(echoed address/value for single write, echoed address/count for multiple
write). -/
def Invocation.deviceResponse (address : Nat) : Invocation → List Nat
  | .rd _ count values =>
    let core := [address, 0x03, 2 * count] ++ (values.map word).flatten
    core ++ get_crc core
  | .sw reg value =>
    let core := [address, 0x06] ++ regAddrOf reg ++ word value
    core ++ get_crc core
  | .mw start count _ =>
    let core := [address, 0x10] ++ regAddrOf start ++ word count
    core ++ get_crc core

/-- Registers of the original command, as the parsed dict reports them: the
contiguous window of catalog names for a span, the bare name for a single
write. -/
def Invocation.origRegsVal : Invocation → PyVal
  | .rd start count _ =>
    .list (((register_order.drop (ordIdx start)).take count).map .str)
  | .sw reg _ => .str reg
  | .mw start count _ =>
    .list (((register_order.drop (ordIdx start)).take count).map .str)

/-- Data of the original command (or, for a read, of the device's answer),
as the parsed dict reports it. -/
def Invocation.origDataVal : Invocation → PyVal
  | .rd _ _ values => .list (values.map .int)
  | .sw _ v => .int v
  | .mw _ _ values => .list (values.map .int)

set_option maxRecDepth 100000

/-! ### CRC16 lemmas -/

theorem crcShift_eq_spec_round (c : Nat) : crcShift c = crc16_spec_round c := by
  simp [crcShift, crc16_spec_round, Nat.and_one_is_mod, Nat.shiftRight_one]

theorem crcRounds_eight (c b : Nat) :
    crcRounds (c ^^^ b) 8 = crc16_spec_byte c b := by
  simp [crcRounds, crc16_spec_byte, crcShift_eq_spec_round]

theorem crc_fold_eq (msg : List Nat) (c : Nat) :
    msg.foldl (fun crc b => crcRounds (crc ^^^ b) 8) c =
      msg.foldl crc16_spec_byte c := by
  induction msg generalizing c with
  | nil => rfl
  | cons b bs ih => simp only [List.foldl_cons, crcRounds_eight, ih]

theorem crc16_spec_round_lt (c : Nat) (h : c < 65536) :
    crc16_spec_round c < 65536 := by
  have hdiv : c / 2 < 65536 := Nat.lt_of_le_of_lt (Nat.div_le_self c 2) h
  unfold crc16_spec_round
  split
  · have : (65536 : Nat) = 2 ^ 16 := by norm_num
    rw [this] at hdiv ⊢
    exact Nat.xor_lt_two_pow hdiv (by norm_num)
  · exact hdiv

theorem crc16_spec_byte_lt (c b : Nat) (hc : c < 65536) (hb : b < 256) :
    crc16_spec_byte c b < 65536 := by
  have hx : c ^^^ b < 65536 := by
    have h16 : (65536 : Nat) = 2 ^ 16 := by norm_num
    rw [h16] at hc ⊢
    exact Nat.xor_lt_two_pow hc (Nat.lt_trans hb (by norm_num))
  unfold crc16_spec_byte
  repeat apply crc16_spec_round_lt
  exact hx

theorem crc_fold_lt (msg : List Nat) :
    ∀ c, c < 65536 → (∀ b ∈ msg, b < 256) →
      msg.foldl crc16_spec_byte c < 65536 := by
  induction msg with
  | nil => intro c hc _; exact hc
  | cons b bs ih =>
    intro c hc hb
    simp only [List.foldl_cons]
    exact ih _ (crc16_spec_byte_lt c b hc (hb b (List.mem_cons_self b bs)))
      (fun x hx => hb x (List.mem_cons_of_mem b hx))

/-- C2: `get_crc` implements the Modbus CRC16 bit-level algorithm of the
spec — accumulator initialized to 0xFFFF, per-byte XOR into the low byte
followed by 8 shift/XOR-0xA001 rounds, result emitted as 2 bytes LSB
first — and matches the published reference values on the empty string and
on the standard check string "123456789". -/
theorem C2_get_crc_matches_spec :
    (∀ msg : List Nat, (∀ b ∈ msg, b < 256) → get_crc msg = crc16_spec msg) ∧
    get_crc [] = [0xFF, 0xFF] ∧
    get_crc [0x31, 0x32, 0x33, 0x34, 0x35, 0x36, 0x37, 0x38, 0x39] =
      [0x37, 0x4B] := by
  refine ⟨fun msg hb => ?_, by decide, by decide⟩
  unfold get_crc crc16_spec crcPack
  rw [crc_fold_eq]
  have hlt : msg.foldl crc16_spec_byte 0xFFFF < 65536 :=
    crc_fold_lt msg 0xFFFF (by norm_num) hb
  have : msg.foldl crc16_spec_byte 0xFFFF / 256 < 256 := by omega
  simp [Nat.mod_eq_of_lt this]

/-- Witness for C2: the refinement equation evaluated on a concrete byte
string. -/
theorem C2_get_crc_matches_spec_witness :
    (∀ b ∈ [1, 2, 3], b < 256) ∧ get_crc [1, 2, 3] = crc16_spec [1, 2, 3] :=
  ⟨by decide, C2_get_crc_matches_spec.1 [1, 2, 3] (by decide)⟩

/-- C10: the register catalog and the register order list carry exactly the
same 13 names in the same order, and every register's 2-byte big-endian
address value equals its ordinal index in the order list. -/
theorem C10_catalog_order_agree :
    registers.map Prod.fst = register_order ∧
    register_order.length = 13 ∧
    ∀ p ∈ registers, dataUnpack p.2 = indexOfName p.1 register_order := by
  decide

/-! ### Catalog and framing lemmas -/

@[simp] theorem except_bind_ok {ε α β : Type} (a : α) (f : α → Except ε β) :
    (Except.ok a >>= f) = f a := rfl

@[simp] theorem except_bind_error {ε α β : Type} (e : ε)
    (f : α → Except ε β) : (Except.error e >>= f : Except ε β) =
      Except.error e := rfl

theorem catalog_facts : ∀ nm ∈ register_order,
    dictGet registers nm = .ok (regAddrOf nm) ∧
    (regAddrOf nm).length = 2 ∧
    findRegisterName (regAddrOf nm) = .inl nm ∧
    indexOfName nm register_order = .ok (ordIdx nm) := by
  decide

theorem get_crc_length (msg : List Nat) : (get_crc msg).length = 2 := rfl

theorem dictGet_error_eq {α : Type} (d : List (String × α)) (k : String)
    (e : PyErr) (h : dictGet d k = .error e) : e = .keyError := by
  unfold dictGet at h
  cases hf : d.find? (fun p => p.1 = k) <;> rw [hf] at h <;>
    simp_all

/-- C7: `connect_port` tears down any existing connection first, opens the
named port with read timeout 1, and reports open failure as the boolean
`false` (the `SerialException` is caught, never propagated). -/
theorem C7_connect_port_resets_then_opens (s : Session) (p : String)
    (openOk : Bool) :
    (connect_port s p openOk).2.1 = openOk ∧
    (connect_port s p openOk).2.2 =
      (match s.port with | some h => [h] | none => []) ∧
    (connect_port s p openOk).1.port =
      (if openOk then some ⟨p, 1⟩ else none) := by
  cases s with
  | mk port => cases port <;> cases openOk <;>
      simp [connect_port, disconnect_port]

/-- C6: an I/O fault while probing an open port disconnects the session
(the handle is cleared and closed) before `is_port_alive` returns `false`,
and afterwards every `__send` returns the sentinel `b"\x00"` with no port
I/O at all. -/
theorem C6_probe_fault_disconnects (s : Session) (h : PortHandle)
    (hport : s.port = some h) :
    (is_port_alive s false).1.port = none ∧
    (is_port_alive s false).2.1 = false ∧
    (is_port_alive s false).2.2 = [h] ∧
    ∀ (cmd : List Nat) (len : Nat) (probeOk : Bool) (dev : List Nat),
      send (is_port_alive s false).1 cmd len probeOk dev =
        ((is_port_alive s false).1, [0x00], []) := by
  cases s with
  | mk port =>
    cases hport
    refine ⟨rfl, rfl, rfl, fun cmd len probeOk dev => ?_⟩
    simp [is_port_alive, disconnect_port, send]

/-- Witness for C6 at a concrete connected session. -/
theorem C6_probe_fault_disconnects_witness :
    (Session.mk (some ⟨"COM1", 1⟩)).port = some ⟨"COM1", 1⟩ ∧
    ((is_port_alive ⟨some ⟨"COM1", 1⟩⟩ false).1.port = none ∧
     (is_port_alive ⟨some ⟨"COM1", 1⟩⟩ false).2.1 = false ∧
     (is_port_alive ⟨some ⟨"COM1", 1⟩⟩ false).2.2 = [⟨"COM1", 1⟩] ∧
     ∀ (cmd : List Nat) (len : Nat) (probeOk : Bool) (dev : List Nat),
       send (is_port_alive ⟨some ⟨"COM1", 1⟩⟩ false).1 cmd len probeOk dev =
         ((is_port_alive ⟨some ⟨"COM1", 1⟩⟩ false).1, [0x00], [])) :=
  ⟨rfl, C6_probe_fault_disconnects ⟨some ⟨"COM1", 1⟩⟩ ⟨"COM1", 1⟩ rfl⟩

/-- C5: an unrecognized mode string or a register name outside the catalog
makes `send_command` raise the `KeyError` (UnsupportedModeError /
UnknownRegisterError) during frame assembly: nothing is written to the
port and the session is unchanged. -/
theorem C5_bad_mode_or_register_fails_fast (s : Session) (address : Nat)
    (mode : String) (regs : PyRegs) (data : PyData) (probeOk : Bool)
    (dev : List Nat) (haddr : address < 256)
    (hbad : dictGet functionDict mode = .error .keyError ∨
            dictGet registers regs.firstName = .error .keyError) :
    send_command s address mode regs data probeOk dev =
      (s, .error .keyError, []) := by
  have hbuild : build_command address mode regs data = .error .keyError := by
    rcases hbad with hmode | hreg
    · simp [build_command, bytePack, haddr, hmode, Except.bind]
    · cases hfb : dictGet functionDict mode with
      | error e =>
        have := dictGet_error_eq _ _ _ hfb
        subst this
        simp [build_command, bytePack, haddr, hfb, Except.bind]
      | ok fb =>
        simp [build_command, bytePack, haddr, hfb, hreg, Except.bind]
  simp [send_command, hbuild]

/-- Witness for C5: an unsupported mode string on a disconnected session. -/
theorem C5_bad_mode_or_register_fails_fast_witness :
    (1 < 256 ∧
      (dictGet functionDict "reed" = .error .keyError ∨
       dictGet registers (PyRegs.name "V-SET").firstName = .error .keyError)) ∧
    send_command ⟨none⟩ 1 "reed" (.name "V-SET") .none true [] =
      (⟨none⟩, .error .keyError, []) :=
  ⟨⟨by norm_num, Or.inl (by decide)⟩,
    C5_bad_mode_or_register_fails_fast ⟨none⟩ 1 "reed" (.name "V-SET") .none
      true [] (by norm_num) (Or.inl (by decide))⟩

/-- C3: when the raw response's trailing two bytes do not equal the CRC16 of
the rest, `send_command` returns `(False, {"mode": mode})` and never
reaches the per-mode decoding. -/
theorem C3_crc_mismatch_rejected (s : Session) (address : Nat) (mode : String)
    (regs : PyRegs) (data : PyData) (probeOk : Bool) (dev : List Nat)
    (command expected response : List Nat)
    (hbuild : build_command address mode regs data = .ok (command, expected))
    (hresp : (send s command expected.length probeOk dev).2.1 = response)
    (hcrc : response.drop (response.length - 2) ≠
            get_crc (response.take (response.length - 2))) :
    (send_command s address mode regs data probeOk dev).2.1 =
      .ok (false, [("mode", .str mode)]) := by
  simp only [send_command, hbuild]
  rw [show (send s command expected.length probeOk dev) =
      ((send s command expected.length probeOk dev).1,
       (send s command expected.length probeOk dev).2.1,
       (send s command expected.length probeOk dev).2.2) from rfl, hresp]
  simp [check_response, hcrc]

/-- Witness for C3: a disconnected session produces the sentinel `b"\x00"`,
whose CRC never validates. -/
theorem C3_crc_mismatch_rejected_witness :
    (build_command 1 "read" (.span "V-SET" 1) .none =
        .ok ([1, 3, 0, 0, 0, 1, 132, 10], [1, 3, 2, 0, 0, 184, 68]) ∧
      (send ⟨none⟩ [1, 3, 0, 0, 0, 1, 132, 10]
          ([1, 3, 2, 0, 0, 184, 68] : List Nat).length true []).2.1 =
        [0x00] ∧
      ([0x00] : List Nat).drop (([0x00] : List Nat).length - 2) ≠
        get_crc (([0x00] : List Nat).take (([0x00] : List Nat).length - 2))) ∧
    (send_command ⟨none⟩ 1 "read" (.span "V-SET" 1) .none true []).2.1 =
      .ok (false, [("mode", .str "read")]) :=
  ⟨⟨by decide, rfl, by decide⟩,
    C3_crc_mismatch_rejected ⟨none⟩ 1 "read" (.span "V-SET" 1) .none true []
      [1, 3, 0, 0, 0, 1, 132, 10] [1, 3, 2, 0, 0, 184, 68] [0x00]
      (by decide) rfl (by decide)⟩

/-- C8: a CRC-valid response whose function-code byte is none of 0x03, 0x06,
0x10 parses without raising into the empty dict — the defensive
`return dict()` — carrying no register data. -/
theorem C8_unknown_function_code_safe (command response : List Nat)
    (hlen : 2 ≤ response.length)
    (hcrc : response.drop (response.length - 2) =
            get_crc (response.take (response.length - 2)))
    (hmode : (response.drop 1).take 1 ∉ [[0x03], [0x06], [0x10]]) :
    parse_response command response = .ok [] := by
  match response, hlen with
  | b0 :: b1 :: rest, _ =>
    have hm : [b1] ∉ [[0x03], [0x06], [0x10]] := by simpa using hmode
    have h3 : (3 : Nat) ≠ b1 := fun he => hm (by simp [← he])
    have h6 : (6 : Nat) ≠ b1 := fun he => hm (by simp [← he])
    have h16 : (16 : Nat) ≠ b1 := fun he => hm (by simp [← he])
    have hfind : lookupModeName [b1] = .inr [b1] := by
      simp [lookupModeName, functionDict, List.find?, h3, h6, h16]
    simp [parse_response, byteUnpack, hfind]

/-- Witness for C8: a CRC-valid frame with function code 0x09. -/
theorem C8_unknown_function_code_safe_witness :
    (2 ≤ ([1, 9, 192, 38] : List Nat).length ∧
      ([1, 9, 192, 38] : List Nat).drop (([1, 9, 192, 38] : List Nat).length - 2) =
        get_crc (([1, 9, 192, 38] : List Nat).take
          (([1, 9, 192, 38] : List Nat).length - 2)) ∧
      (([1, 9, 192, 38] : List Nat).drop 1).take 1 ∉
        [[0x03], [0x06], [0x10]]) ∧
    parse_response [120, 120] [1, 9, 192, 38] = .ok [] :=
  ⟨⟨by decide, by decide, by decide⟩,
    C8_unknown_function_code_safe [120, 120] [1, 9, 192, 38] (by decide)
      (by decide) (by decide)⟩

/-- C9: for a valid single write, the expected-response template equals the
command frame byte for byte, and both are 8 bytes long. -/
theorem C9_single_write_expected_echoes_command (address : Nat) (reg : String)
    (value : Nat) (haddr : address < 256) (hreg : reg ∈ register_order)
    (hval : value < 65536) :
    ∃ frame : List Nat,
      build_command address "single_write" (.name reg) (.int value) =
        .ok (frame, frame) ∧ frame.length = 8 := by
  obtain ⟨hget, hlen2, -, -⟩ := catalog_facts reg hreg
  refine ⟨[address] ++ [0x06] ++ regAddrOf reg ++ word value ++
    get_crc ([address] ++ [0x06] ++ regAddrOf reg ++ word value), ?_, ?_⟩
  · have hfd : dictGet functionDict "single_write" = Except.ok [0x06] := by
      decide
    simp [build_command, bytePack, haddr, dataPack, hval, hfd, hget,
      PyRegs.firstName, word]
  · simp [List.length_append, hlen2, word, get_crc_length]

/-! ### Word-list and frame-shape lemmas -/

theorem word_length (n : Nat) : (word n).length = 2 := rfl

theorem dataUnpack_word (n : Nat) :
    dataUnpack (word n) = .ok n := by
  simp only [dataUnpack, word]
  congr 1
  omega

theorem flatten_words_length (values : List Nat) :
    ((values.map word).flatten).length = 2 * values.length := by
  induction values with
  | nil => rfl
  | cons v vs ih =>
    simp only [List.map_cons, List.flatten_cons, List.length_append,
      List.length_cons, word_length, ih]
    omega

theorem readPlaceholders_length (n : Nat) :
    (readPlaceholders n).length = 2 * n := by
  induction n with
  | zero => rfl
  | succ k ih =>
    simp [readPlaceholders, ih]
    omega

theorem append_crc_split (core t : List Nat) (ht : t.length = 2) :
    (core ++ t).take ((core ++ t).length - 2) = core ∧
    (core ++ t).drop ((core ++ t).length - 2) = t := by
  rw [List.length_append, ht, Nat.add_sub_cancel]
  exact ⟨List.take_left core t, List.drop_left core t⟩

theorem take_two_of_append (ab rest : List Nat) (h : ab.length = 2) :
    (ab ++ rest).take 2 = ab := by
  rw [← h]; exact List.take_left ab rest

theorem drop_two_of_append (ab rest : List Nat) (h : ab.length = 2) :
    (ab ++ rest).drop 2 = rest := by
  rw [← h]; exact List.drop_left ab rest

theorem readWords_flatten (values : List Nat)
    (h : ∀ v ∈ values, v < 65536) :
    readWords ((values.map word).flatten) values.length = .ok values := by
  induction values with
  | nil => rfl
  | cons v vs ih =>
    simp only [List.map_cons, List.flatten_cons, List.length_cons]
    rw [readWords,
      take_two_of_append (word v) _ (word_length v),
      drop_two_of_append (word v) _ (word_length v),
      dataUnpack_word v,
      ih (fun x hx => h x (List.mem_cons_of_mem v hx))]
    rfl

theorem packWords_list (values : List Nat)
    (h : ∀ v ∈ values, v < 65536) :
    ∀ k, k ≤ values.length →
      packWords (.list values) k = .ok (((values.map word).take k).flatten)
  | 0, _ => rfl
  | k + 1, hk => by
    have hklt : k < values.length := hk
    rw [packWords, packWords_list values h k (Nat.le_of_succ_le hk)]
    have hget : values.get? k = some (values.get ⟨k, hklt⟩) :=
      List.get?_eq_get hklt
    have hv : values.get ⟨k, hklt⟩ < 65536 :=
      h _ (values.get_mem k hklt)
    simp only [except_bind_ok, PyData.item, hget, dataPack, if_pos hv]
    have hmk : k < (values.map word).length := by simpa using hklt
    have hstep : (values.map word).take (k + 1) =
        (values.map word).take k ++ [word (values.get ⟨k, hklt⟩)] := by
      rw [List.take_succ, List.getElem?_eq_getElem hmk]
      simp [List.get_eq_getElem]
    rw [hstep]
    simp [word, List.get_eq_getElem]

/-- Witness for C9 at a concrete single write. -/
theorem C9_single_write_expected_echoes_command_witness :
    (1 < 256 ∧ "I-SET" ∈ register_order ∧ 300 < 65536) ∧
    ∃ frame : List Nat,
      build_command 1 "single_write" (.name "I-SET") (.int 300) =
        .ok (frame, frame) ∧ frame.length = 8 :=
  ⟨⟨by norm_num, by decide, by norm_num⟩,
    C9_single_write_expected_echoes_command 1 "I-SET" 300 (by norm_num)
      (by decide) (by norm_num)⟩

/-! ### Frame-assembly lemmas for the three modes -/

theorem build_read_eq (address : Nat) (start : String) (count : Nat)
    (haddr : address < 256) (hstart : start ∈ register_order)
    (hcount : count ≤ 13) :
    build_command address "read" (.span start count) .none =
      .ok ((address :: 0x03 :: (regAddrOf start ++ word count)) ++
             get_crc (address :: 0x03 :: (regAddrOf start ++ word count)),
           (address :: 0x03 :: count * 2 :: readPlaceholders count) ++
             get_crc (address :: 0x03 :: count * 2 :: readPlaceholders count)) := by
  obtain ⟨hget, -, -, -⟩ := catalog_facts start hstart
  have hfd : dictGet functionDict "read" = Except.ok [0x03] := by decide
  have h1 : count < 65536 := by omega
  have h2 : count * 2 < 256 := by omega
  simp [build_command, bytePack, haddr, hfd, hget, PyRegs.firstName,
    PyRegs.second, dataPack, h1, h2, word]

theorem build_single_eq (address : Nat) (reg : String) (value : Nat)
    (haddr : address < 256) (hreg : reg ∈ register_order)
    (hval : value < 65536) :
    build_command address "single_write" (.name reg) (.int value) =
      .ok ((address :: 0x06 :: (regAddrOf reg ++ word value)) ++
             get_crc (address :: 0x06 :: (regAddrOf reg ++ word value)),
           (address :: 0x06 :: (regAddrOf reg ++ word value)) ++
             get_crc (address :: 0x06 :: (regAddrOf reg ++ word value))) := by
  obtain ⟨hget, -, -, -⟩ := catalog_facts reg hreg
  have hfd : dictGet functionDict "single_write" = Except.ok [0x06] := by
    decide
  simp [build_command, bytePack, haddr, hfd, hget, PyRegs.firstName,
    dataPack, hval, word]

theorem build_multiple_eq (address : Nat) (start : String)
    (values : List Nat) (haddr : address < 256)
    (hstart : start ∈ register_order) (hcount : values.length ≤ 13)
    (hvals : ∀ v ∈ values, v < 65536) :
    build_command address "multiple_write" (.span start values.length)
        (.list values) =
      .ok ((address :: 0x10 :: (regAddrOf start ++ word values.length ++
              (2 * values.length :: (values.map word).flatten))) ++
             get_crc (address :: 0x10 :: (regAddrOf start ++
               word values.length ++
               (2 * values.length :: (values.map word).flatten))),
           (address :: 0x10 :: (regAddrOf start ++ word values.length)) ++
             get_crc (address :: 0x10 ::
               (regAddrOf start ++ word values.length))) := by
  obtain ⟨hget, -, -, -⟩ := catalog_facts start hstart
  have hfd : dictGet functionDict "multiple_write" = Except.ok [0x10] := by
    decide
  have h1 : values.length < 65536 := by omega
  have h2 : 2 * values.length < 256 := by omega
  have hpk := packWords_list values hvals values.length (Nat.le_refl _)
  have htake : (values.map word).take values.length = values.map word := by
    apply List.take_of_length_le
    simp
  rw [htake] at hpk
  simp [build_command, bytePack, haddr, hfd, hget, PyRegs.firstName,
    PyRegs.second, dataPack, h1, h2, hpk, word]

/-! ### Response-decoding lemmas for the three modes -/

theorem parse_read_eq (address count : Nat) (start : String)
    (values : List Nat) (command tail : List Nat)
    (hstart : start ∈ register_order) (hcount : values.length = count)
    (hvals : ∀ v ∈ values, v < 65536) (htail : tail.length = 2)
    (hcmd : (command.drop 2).take 2 = regAddrOf start) :
    parse_response command
        ((address :: 0x03 :: 2 * count :: (values.map word).flatten) ++ tail) =
      .ok [("address", .int address), ("mode", .str "read"),
           ("registers",
             .list (((register_order.drop (ordIdx start)).take count).map .str)),
           ("data", .list (values.map .int))] := by
  obtain ⟨-, hlen2, hfindr, hidx⟩ := catalog_facts start hstart
  obtain ⟨htake, -⟩ := append_crc_split
    (address :: 0x03 :: 2 * count :: (values.map word).flatten) tail htail
  have hlm : lookupModeName [0x03] = .inl "read" := by decide
  have hdiv : 2 * count / 2 = count := Nat.mul_div_cancel_left count
    (by norm_num)
  have hrw : readWords ((values.map word).flatten) count = .ok values :=
    hcount ▸ readWords_flatten values hvals
  simp only [parse_response]
  rw [htake, hcmd]
  simp [byteUnpack, hlm, hdiv, hrw, hfindr, orderIndexOf, hidx]

theorem parse_single_eq (address value : Nat) (reg : String)
    (command tail : List Nat) (hreg : reg ∈ register_order)
    (htail : tail.length = 2) :
    parse_response command
        ((address :: 0x06 :: (regAddrOf reg ++ word value)) ++ tail) =
      .ok [("address", .int address), ("mode", .str "single_write"),
           ("data", .int value), ("registers", .str reg)] := by
  obtain ⟨-, hlen2, hfindr, -⟩ := catalog_facts reg hreg
  obtain ⟨htake, -⟩ := append_crc_split
    (address :: 0x06 :: (regAddrOf reg ++ word value)) tail htail
  have hab : (regAddrOf reg ++ word value).take 2 = regAddrOf reg :=
    take_two_of_append _ _ hlen2
  have hdrop : (regAddrOf reg ++ word value).drop 2 = word value :=
    drop_two_of_append _ _ hlen2
  have hlm : lookupModeName [0x06] = .inl "single_write" := by decide
  simp only [parse_response]
  rw [htake]
  simp [byteUnpack, hab, hdrop, hlm, dataUnpack_word, hfindr,
    nameOrBytesVal]

theorem parse_multiple_eq (address n : Nat) (start : String)
    (command tail vals : List Nat) (hstart : start ∈ register_order)
    (htail : tail.length = 2)
    (hvals : readWords ((command.take (command.length - 2)).drop 7) n =
      .ok vals) :
    parse_response command
        ((address :: 0x10 :: (regAddrOf start ++ word n)) ++ tail) =
      .ok [("address", .int address), ("mode", .str "multiple_write"),
           ("registers",
             .list (((register_order.drop (ordIdx start)).take n).map .str)),
           ("data", .list (vals.map .int))] := by
  obtain ⟨-, hlen2, hfindr, hidx⟩ := catalog_facts start hstart
  obtain ⟨htake, -⟩ := append_crc_split
    (address :: 0x10 :: (regAddrOf start ++ word n)) tail htail
  have hab : (regAddrOf start ++ word n).take 2 = regAddrOf start :=
    take_two_of_append _ _ hlen2
  have hdrop : (regAddrOf start ++ word n).drop 2 = word n :=
    drop_two_of_append _ _ hlen2
  have hlm : lookupModeName [0x10] = .inl "multiple_write" := by decide
  simp only [parse_response]
  rw [htake]
  simp [byteUnpack, hab, hdrop, hlm, dataUnpack_word, hfindr,
    orderIndexOf, hidx, hvals]

/-- C4: for a multiple-write command and a CRC-valid response, the decoder
takes the echoed starting address and register count from the response,
resolves the register-name window from the catalog's ordinal order, and
reads the decoded data values out of the original command frame's payload
(bytes after the 7-byte header, excluding the trailing CRC) — never out of
the response. -/
theorem C4_multiple_write_data_from_command (address n : Nat)
    (start : String) (command vals : List Nat)
    (hstart : start ∈ register_order)
    (hvals : readWords ((command.take (command.length - 2)).drop 7) n =
      .ok vals) :
    parse_response command
        ((address :: 0x10 :: (regAddrOf start ++ word n)) ++
          get_crc (address :: 0x10 :: (regAddrOf start ++ word n))) =
      .ok [("address", .int address), ("mode", .str "multiple_write"),
           ("registers",
             .list (((register_order.drop (ordIdx start)).take n).map .str)),
           ("data", .list (vals.map .int))] :=
  parse_multiple_eq address n start command _ vals hstart
    (get_crc_length _) hvals

/-- Witness for C4: decoding a concrete multiple-write confirmation whose
values live only in the original command. -/
theorem C4_multiple_write_data_from_command_witness :
    ("V-SET" ∈ register_order ∧
      readWords ((([2, 16, 0, 0, 0, 2, 4, 0, 5, 255, 255, 237, 90] :
          List Nat).take
            (([2, 16, 0, 0, 0, 2, 4, 0, 5, 255, 255, 237, 90] :
              List Nat).length - 2)).drop 7) 2 = .ok [5, 65535]) ∧
    parse_response [2, 16, 0, 0, 0, 2, 4, 0, 5, 255, 255, 237, 90]
        ((2 :: 0x10 :: (regAddrOf "V-SET" ++ word 2)) ++
          get_crc (2 :: 0x10 :: (regAddrOf "V-SET" ++ word 2))) =
      .ok [("address", .int 2), ("mode", .str "multiple_write"),
           ("registers",
             .list (((register_order.drop (ordIdx "V-SET")).take 2).map .str)),
           ("data", .list ([5, 65535].map .int))] :=
  ⟨⟨by decide, by decide⟩,
    C4_multiple_write_data_from_command 2 2 "V-SET"
      [2, 16, 0, 0, 0, 2, 4, 0, 5, 255, 255, 237, 90] [5, 65535]
      (by decide) (by decide)⟩

/-! ### Round trip -/

theorem send_command_ok (h : PortHandle) (address : Nat) (mode : String)
    (regs : PyRegs) (data : PyData) (command expected core : List Nat)
    (D : PyDict)
    (hbuild : build_command address mode regs data = .ok (command, expected))
    (hlen : core.length + 2 = expected.length)
    (hparse : parse_response command (core ++ get_crc core) = .ok D) :
    (send_command ⟨some h⟩ address mode regs data true
      (core ++ get_crc core)).2.1 = .ok (true, D) := by
  have htk : (core ++ get_crc core).take expected.length =
      core ++ get_crc core := by
    apply List.take_of_length_le
    simp [get_crc_length]
    omega
  obtain ⟨ht2, hd2⟩ := append_crc_split core (get_crc core)
    (get_crc_length core)
  simp only [send_command, hbuild, send, is_port_alive, if_true]
  rw [htk]
  simp only [check_response]
  rw [ht2, hd2, if_pos rfl, hparse]
  rfl

/-- C1: for each of the three modes, a valid command answered by the
response a correctly functioning device produces decodes with validity
`True` into a dict whose registers and data equal the original registers
and data of the command, unchanged. -/
theorem C1_round_trip (h : PortHandle) (address : Nat) (inv : Invocation)
    (haddr : address < 256) (hvalid : inv.validb = true) :
    ∃ d : PyDict,
      (send_command ⟨some h⟩ address inv.mode inv.regsArg inv.dataArg true
        (inv.deviceResponse address)).2.1 = .ok (true, d) ∧
      dictGet d "registers" = .ok inv.origRegsVal ∧
      dictGet d "data" = .ok inv.origDataVal := by
  cases inv with
  | rd start count values =>
    simp only [Invocation.validb, Bool.and_eq_true, decide_eq_true_eq,
      List.all_eq_true] at hvalid
    obtain ⟨⟨⟨hcont, hle⟩, hcnt⟩, hvals⟩ := hvalid
    have hmem : start ∈ register_order := by simpa using hcont
    have hvals' : ∀ v ∈ values, v < 65536 := fun v hv => by
      simpa using hvals v hv
    have hcount13 : count ≤ 13 := by omega
    obtain ⟨-, hlen2, -, -⟩ := catalog_facts start hmem
    refine ⟨_, send_command_ok h address "read" (.span start count) .none
      _ _ _ _ (build_read_eq address start count haddr hmem hcount13)
      (by
        simp only [List.length_append, List.length_cons, List.length_nil,
          flatten_words_length, readPlaceholders_length, get_crc_length,
          hcnt]
        omega)
      (parse_read_eq address count start values _ _ hmem hcnt hvals'
        (get_crc_length _)
        (by
          simp only [List.cons_append, List.drop_succ_cons, List.drop_zero,
            List.append_assoc]
          exact take_two_of_append _ _ hlen2)),
      by simp [dictGet, Invocation.origRegsVal, List.map_take,
        List.map_drop],
      by simp [dictGet, Invocation.origDataVal]⟩
  | sw reg value =>
    simp only [Invocation.validb, Bool.and_eq_true,
      decide_eq_true_eq] at hvalid
    obtain ⟨hcont, hval⟩ := hvalid
    have hmem : reg ∈ register_order := by simpa using hcont
    refine ⟨_, send_command_ok h address "single_write" (.name reg)
      (.int value) _ _ _ _ (build_single_eq address reg value haddr hmem hval)
      (by
        obtain ⟨-, hlen2, -, -⟩ := catalog_facts reg hmem
        simp [hlen2, word, get_crc_length])
      (parse_single_eq address value reg _ _ hmem (get_crc_length _)),
      by simp [dictGet, Invocation.origRegsVal, List.map_take,
        List.map_drop],
      by simp [dictGet, Invocation.origDataVal]⟩
  | mw start count values =>
    simp only [Invocation.validb, Bool.and_eq_true, decide_eq_true_eq,
      List.all_eq_true] at hvalid
    obtain ⟨⟨⟨hcont, hle⟩, hcnt⟩, hvals⟩ := hvalid
    have hmem : start ∈ register_order := by simpa using hcont
    have hvals' : ∀ v ∈ values, v < 65536 := fun v hv => by
      simpa using hvals v hv
    subst hcnt
    have hcount13 : values.length ≤ 13 := by omega
    refine ⟨_, send_command_ok h address "multiple_write"
      (.span start values.length) (.list values) _ _ _ _
      (build_multiple_eq address start values haddr hmem hcount13 hvals')
      (by
        obtain ⟨-, hlen2, -, -⟩ := catalog_facts start hmem
        simp [hlen2, word, get_crc_length])
      (parse_multiple_eq address values.length start _ _ values hmem
        (get_crc_length _) ?_),
      by simp [dictGet, Invocation.origRegsVal, List.map_take,
        List.map_drop],
      by simp [dictGet, Invocation.origDataVal]⟩
    · obtain ⟨-, hlen2, -, -⟩ := catalog_facts start hmem
      obtain ⟨b0, b1, hab⟩ := List.length_eq_two.mp hlen2
      obtain ⟨ht2, -⟩ := append_crc_split
        (address :: 0x10 :: (regAddrOf start ++ word values.length ++
          (2 * values.length :: (values.map word).flatten)))
        (get_crc _) (get_crc_length _)
      rw [ht2, hab]
      simpa [word] using readWords_flatten values hvals'

/-- Witness for C1 at a concrete single write. -/
theorem C1_round_trip_witness :
    (1 < 256 ∧ Invocation.validb (.sw "V-SET" 300) = true) ∧
    ∃ d : PyDict,
      (send_command ⟨some ⟨"p", 1⟩⟩ 1 (Invocation.sw "V-SET" 300).mode
        (Invocation.sw "V-SET" 300).regsArg
        (Invocation.sw "V-SET" 300).dataArg true
        ((Invocation.sw "V-SET" 300).deviceResponse 1)).2.1 =
          .ok (true, d) ∧
      dictGet d "registers" = .ok (Invocation.sw "V-SET" 300).origRegsVal ∧
      dictGet d "data" = .ok (Invocation.sw "V-SET" 300).origDataVal :=
  ⟨⟨by norm_num, by decide⟩,
    C1_round_trip ⟨"p", 1⟩ 1 (.sw "V-SET" 300) (by norm_num) (by decide)⟩

end DPH5005
